import Mathlib

/-!
Shallow embedding of the balancing-rover control core
(`src/rover/src/python/balance/`): the PID controller (`pid.py`), the
sensor calibration routines (`gyro.py`, `accel.py`), the balance state
machine and bump compensator fragments of `Balance.run_loop`
(`balancing.py`), and a small model of Python call binding used to settle
claims about constructor / method call signatures.

Python floats are modelled as rationals: every comparison and arithmetic
operation the claims depend on is exact at the inputs considered.
-/

namespace BalancingRover

/-! Section: Python call binding

A Python call to a function without `*args` / `**kwargs` binds (does not
raise `TypeError`) iff: the positional arguments do not exceed the
parameter list, every keyword names a declared parameter, no keyword
targets a parameter already bound positionally, and every parameter left
unbound has a default. -/

structure PyParam where
  name : String
  hasDefault : Bool
deriving DecidableEq

def bindsOk (params : List PyParam) (numPositional : Nat) (kwargs : List String) : Bool :=
  decide (numPositional ≤ params.length) &&
  kwargs.all (fun k => params.any (fun p => p.name == k)) &&
  kwargs.all (fun k => (params.take numPositional).all (fun p => p.name != k)) &&
  (params.drop numPositional).all (fun p => p.hasDefault || kwargs.any (fun k => k == p.name))

/-- Parameters of `PID.process(self, set_point, current)` (pid.py line 64),
excluding `self`; neither has a default. -/
def PID.processParams : List PyParam := [⟨"set_point", false⟩, ⟨"current", false⟩]

/-- The call `self.pid_inner.process(pid_time, 0.0, math.sin(self.cy * math.pi / 90.0) * 2)`
(balancing.py line 137) passes three positional arguments and no keywords. -/
def runLoopProcessNumPositional : Nat := 3

def runLoopProcessKwargs : List String := []

/-- An iteration of `Balance.run_loop` that processes at least one gyro data
point reaches the `pid_inner.process` call inside the `try` block; the
iteration takes the `except` branch iff that call fails to bind. -/
def runLoopIterationHitsExceptBranch : Bool :=
  !(bindsOk PID.processParams runLoopProcessNumPositional runLoopProcessKwargs)

/-- Parameters of `L3G4200D.__init__(self, address=0x69, freq=400, bandwidth=50)`
(gyro.py line 81), excluding `self`; all have defaults. -/
def L3G4200D.initParams : List PyParam :=
  [⟨"address", true⟩, ⟨"freq", true⟩, ⟨"bandwidth", true⟩]

/-- Parameters of `ADXL345.__init__(self, address=0x53, freq=200)`
(accel.py line 81), excluding `self`; all have defaults. -/
def ADXL345.initParams : List PyParam := [⟨"address", true⟩, ⟨"freq", true⟩]

/-- Keyword names of the call `L3G4200D(freq=freq, bandwidth=gyro_bandwidth,
combine_filter=gyro_filter)` (balancing.py line 51). The names are fixed by
the source text: they do not depend on the values `Balance.__init__` received,
which is why the function ignores its arguments. -/
def Balance.gyroCtorKwargs (_freq _gyroBandwidth _gyroFilter : ℚ) : List String :=
  ["freq", "bandwidth", "combine_filter"]

/-- Keyword names of the call `ADXL345(freq=freq, combine_filter=accel_filter)`
(balancing.py line 52); fixed by the source text, independent of the values. -/
def Balance.accelCtorKwargs (_freq _accelFilter : ℚ) : List String :=
  ["freq", "combine_filter"]

/-! Section: PID controller (pid.py). -/

structure PIDState where
  set_point : ℚ
  p : ℚ
  i : ℚ
  d : ℚ
  kp : ℚ
  ki : ℚ
  kd : ℚ
  kg : ℚ
  i_gain_scale : ℚ
  d_gain_scale : ℚ
  dead_band : ℚ
  last_error : ℚ
  last_time : ℚ
  last_output : ℚ
  last_delta : ℚ
  first : Bool
deriving DecidableEq

/-- State produced by `PID.__init__` with all default arguments (pid.py line 19). -/
def PID.mkDefault : PIDState :=
  { set_point := 0, p := 0, i := 0, d := 0
    kp := 3/4, ki := 1/5, kd := 1/20, kg := 1
    i_gain_scale := 1, d_gain_scale := 100, dead_band := 1/10000
    last_error := 0, last_time := 0, last_output := 0, last_delta := 0
    first := true }

/-- Model of `PID.process(self, set_point, current)` (pid.py lines 64-101), with the
difference function and the wall-clock reading `now` passed explicitly.
Returns the updated state and the returned output. -/
def PID.process (diff : ℚ → ℚ → ℚ) (s : PIDState) (sp current now : ℚ) :
    PIDState × ℚ :=
  let error0 := diff sp current
  let error := if |error0| ≤ s.dead_band then 0 else error0
  if s.first then
    ({ s with first := false, set_point := sp, last_error := error, last_time := now }, 0)
  else
    let delta_time := now - s.last_time
    let pNew := error
    let iNew :=
      if (s.last_error < 0 ∧ 0 < error) ∨ (s.last_error > 0 ∧ error < 0) then 0
      else if |error| ≤ 1/10 then 0
      else s.i + error * delta_time * s.i_gain_scale
    let dNew :=
      if delta_time > 0 then (error - s.last_error) / (delta_time * s.d_gain_scale)
      else s.d
    let output := (pNew * s.kp + iNew * s.ki + dNew * s.kd) * s.kg
    ({ s with p := pNew, i := iNew, d := dNew, set_point := sp
              last_output := output, last_error := error, last_time := now
              last_delta := delta_time }, output)

/-- Model of `PID.angle_difference(a1, a2)` (pid.py lines 55-62). -/
def PID.angle_difference (a1 a2 : ℚ) : ℚ :=
  let diff := a1 - a2
  if diff ≥ 180 then diff - 360
  else if diff ≤ -180 then diff + 360
  else diff

/-- A gains map entry for `PID.update_gains_from_map`: a key bound to
`some v` models a value convertible to float `v`; a key bound to `none`
models a present but malformed value (float() raises); an absent key
models a missing entry (lookup raises KeyError). -/
def GainsMap := List (String × Option ℚ)

/-- The inner `to_value(name, default)` of `update_gains_from_map`
(pid.py lines 39-44): any exception - missing key or malformed value -
yields the default. -/
def PID.toValue (m : GainsMap) (name : String) (dflt : ℚ) : ℚ :=
  match List.lookup name m with
  | some (some v) => v
  | _ => dflt

/-- Model of `PID.update_gains_from_map` (pid.py lines 38-50): effect on the four
gain fields; every other field is untouched by the source. -/
def PID.update_gains_from_map (s : PIDState) (m : GainsMap) : PIDState :=
  { s with kp := PID.toValue m "p" (3/4)
           ki := PID.toValue m "i" (1/5)
           kd := PID.toValue m "d" (1/20)
           kg := PID.toValue m "g" 1 }

/-! Section: sensor calibration (gyro.py, accel.py).

Both calibrate routines walk the ring buffer from its newest entry
backwards, summing every sample whose timestamp is at least
`now - calibration_time`; the walk is `buf.reverse.takeWhile`. A `none`
result models an uncaught exception. -/

structure GyroSample where
  t : ℚ
  dx : ℚ
  dy : ℚ
  dz : ℚ
deriving DecidableEq

/-- The samples `calibrate` averages: taken from the newest end of the
buffer while their timestamp is at least `now - calibrationTime`
(gyro.py lines 143-150, accel.py lines 141-148). -/
def recentSamples (buf : List GyroSample) (now calibrationTime : ℚ) : List GyroSample :=
  buf.reverse.takeWhile (fun s => decide (now - calibrationTime ≤ s.t))

/-- Model of `L3G4200D.calibrate(self, calibration_time)` (gyro.py lines 131-156):
`cx = _x / reads` with `reads = 0` raises ZeroDivisionError (`none`). -/
def L3G4200D.calibrate (buf : List GyroSample) (now calibrationTime : ℚ) :
    Option (ℚ × ℚ × ℚ) :=
  let recent := recentSamples buf now calibrationTime
  let reads : ℕ := recent.length
  if reads = 0 then none
  else some ((recent.map GyroSample.dx).sum / reads,
             (recent.map GyroSample.dy).sum / reads,
             (recent.map GyroSample.dz).sum / reads)

/-- Constant `SCALE_MULTIPLIER = 0.00390625` (accel.py line 16). -/
def SCALE_MULTIPLIER : ℚ := 1/256

/-- The inner `fix_for_1g(offset)` of `ADXL345.calibrate`
(accel.py lines 123-128): two sequential conditional shifts by 1g. -/
def fix_for_1g (offset : ℚ) : ℚ :=
  let o1 := if offset > 1/2 then offset - 1 else offset
  if o1 < -(1/2) then o1 + 1 else o1

/-- Model of `ADXL345.calibrate(self, calibration_time)` (accel.py lines 122-155):
the division is guarded by `if reads > 0`, so an empty window leaves the
offsets at the zeros they were reset to and returns them. -/
def ADXL345.calibrate (buf : List GyroSample) (now calibrationTime : ℚ) :
    Option (ℚ × ℚ × ℚ) :=
  let recent := recentSamples buf now calibrationTime
  let reads : ℕ := recent.length
  if reads = 0 then some (0, 0, 0)
  else some (fix_for_1g ((recent.map (fun s => s.dx * SCALE_MULTIPLIER)).sum / reads),
             fix_for_1g ((recent.map (fun s => s.dy * SCALE_MULTIPLIER)).sum / reads),
             fix_for_1g ((recent.map (fun s => s.dz * SCALE_MULTIPLIER)).sum / reads))

/-! Section: balance state machine (balancing.py lines 207-225). -/

inductive BState
  | stopped
  | waitingForReady
  | balancing
deriving DecidableEq

/-- The state-machine and motor-command section at the tail of the
`Balance.run_loop` body (balancing.py lines 207-225), as a step on
`(state, last_state)` given the current orientation `cy` and control
value. Returns the new `(state, last_state)` and the list of motor
speed commands issued during the step, in order (each command is sent
to both motors with the same value; the list records the values). -/
def stateStep (maxDeg cy control : ℚ) (state lastState : BState) :
    BState × BState × List ℚ :=
  let firstPart : BState × List ℚ :=
    if state = BState.waitingForReady ∧ -4 < cy ∧ cy < 4 then
      (BState.balancing, [])
    else if state = BState.balancing then
      if cy < -maxDeg ∨ maxDeg < cy then
        (BState.waitingForReady, [0, 0])
      else
        (BState.balancing, [control, control])
    else
      (state, [])
  let state1 := firstPart.1
  let secondPart : BState × List ℚ :=
    if lastState ≠ state1 then
      (state1, if state1 ≠ BState.balancing then [0, 0] else [])
    else
      (lastState, [])
  (state1, secondPart.1, firstPart.2 ++ secondPart.2)

/-- Folding `stateStep` over a list of successive orientation readings,
holding `maxDeg` and `control` fixed. -/
def runOrientationSeq (maxDeg control : ℚ) (state lastState : BState) :
    List ℚ → BState × BState
  | [] => (state, lastState)
  | cy :: rest =>
      let r := stateStep maxDeg cy control state lastState
      runOrientationSeq maxDeg control r.1 r.2.1 rest

/-! Section: bump compensator (balancing.py lines 146-172).

The bump fragment of one control tick, after `last_cy` has been seeded:
`angleChange = cy - last_cy`. `found` is `self.bump_found`, `inPlace` is
`self.bump_in_place`; `bump` is the loop-level variable of the same name,
which persists across ticks. -/

structure BumpParams where
  threshold : ℚ
  delay : ℚ
  gain : ℚ
  step : ℚ
  len : ℚ
deriving DecidableEq

structure BumpState where
  found : Option ℚ
  inPlace : Option ℚ
deriving DecidableEq

/-- One tick of the bump-processing fragment: given the tick time `now`,
orientation `cy`, per-tick change `angleChange`, the persistent `bump`
value and the PID `output`, returns the new bump state, the new `bump`
value and the adjusted output. The source tests `is not None` before
using a timestamp, rendered here as an `≠ none` guard with `Option.getD`
reading the guarded value. -/
def bumpStep (p : BumpParams) (now cy angleChange : ℚ) (s : BumpState)
    (bump output : ℚ) : BumpState × ℚ × ℚ :=
  if (cy < 0 ∧ angleChange < 0) ∨ (0 < cy ∧ 0 < angleChange) then
    let found1 : Option ℚ :=
      if s.found = none then
        (if |angleChange| ≥ p.threshold then some now else none)
      else s.found
    let found2 : Option ℚ :=
      if found1 ≠ none ∧ found1.getD 0 + p.delay ≤ now then none else found1
    let inPlace1 : Option ℚ :=
      if found1 ≠ none ∧ found1.getD 0 + p.delay ≤ now then some now else s.inPlace
    if inPlace1 ≠ none then
      if inPlace1.getD 0 + p.len ≤ now then
        (⟨found2, none⟩, 0, output)
      else
        let b := p.step + cy * p.gain / 45
        if 0 < angleChange then
          (⟨found2, inPlace1⟩, b, output - b)
        else
          (⟨found2, inPlace1⟩, b, output + b)
    else
      (⟨found2, inPlace1⟩, bump, output)
  else
    (⟨none, none⟩, 0, output)

/-! Section: helper lemmas. -/

lemma toValue_of_missing_or_malformed (m : GainsMap) (name : String) (dflt : ℚ)
    (h : List.lookup name m = none ∨ List.lookup name m = some none) :
    PID.toValue m name dflt = dflt := by
  unfold PID.toValue
  rcases h with h | h <;> rw [h]

lemma toValue_of_present (m : GainsMap) (name : String) (dflt v : ℚ)
    (h : List.lookup name m = some (some v)) :
    PID.toValue m name dflt = v := by
  unfold PID.toValue
  rw [h]

/-! Section: claim theorems. -/

/-- C1: the claim says the `pid_inner.process` invocation in the
`Balance.run_loop` body matches the `process` signature, succeeds without
raising, and never reaches the loop's except branch. In the source the call
(balancing.py line 137) passes three positional arguments to the
two-parameter `PID.process` (pid.py line 64), so it cannot bind: Python
raises TypeError at every such call and the except branch is reached on
every iteration that processes a gyro data point. -/
theorem c1_process_call_cannot_bind :
    bindsOk PID.processParams runLoopProcessNumPositional runLoopProcessKwargs = false ∧
    runLoopIterationHitsExceptBranch = true := by
  constructor <;> rfl

/-- C2: for every combination of constructor arguments, `Balance.__init__`
raises TypeError before completing: the keyword `combine_filter` it passes
to both `L3G4200D` and `ADXL345` names no parameter of either constructor,
so neither call binds. -/
theorem c2_balance_init_always_raises
    (freq gyroBandwidth gyroFilter accelFilter : ℚ) :
    bindsOk L3G4200D.initParams 0 (Balance.gyroCtorKwargs freq gyroBandwidth gyroFilter) = false ∧
    bindsOk ADXL345.initParams 0 (Balance.accelCtorKwargs freq accelFilter) = false := by
  constructor <;> rfl

/-- C4 counterexample: a freshly constructed gyro has exactly the initial
buffer entry with timestamp 0; calibrating for 2 seconds at time 100 finds
no sample in the window, `reads` stays 0 and `_x / reads` raises
ZeroDivisionError (modelled as `none`) - `L3G4200D.calibrate` does not
"never raise". -/
theorem c4_gyro_calibrate_raises_on_empty_window :
    L3G4200D.calibrate [⟨0, 0, 0, 0⟩] 100 2 = none := by
  norm_num [L3G4200D.calibrate, recentSamples, List.takeWhile]

/-- C4 (amended): both calibrate routines average whatever buffered samples
fall within the requested duration; `ADXL345.calibrate` never raises (an
empty window returns the zeroed offsets), but `L3G4200D.calibrate` raises
ZeroDivisionError exactly when no buffered sample lies within the window. -/
theorem c4_calibrate_empty_window_behavior
    (buf : List GyroSample) (now calibrationTime : ℚ) :
    ADXL345.calibrate buf now calibrationTime ≠ none ∧
    (L3G4200D.calibrate buf now calibrationTime = none ↔
      recentSamples buf now calibrationTime = []) := by
  constructor
  · unfold ADXL345.calibrate
    dsimp only
    split <;> simp
  · unfold L3G4200D.calibrate
    dsimp only
    constructor
    · intro h
      by_cases hlen : (recentSamples buf now calibrationTime).length = 0
      · exact List.length_eq_zero.mp hlen
      · rw [if_neg hlen] at h
        exact absurd h (by simp)
    · intro h
      rw [if_pos (by rw [h]; rfl)]

/-- C5 counterexample: with `kp = 9/10` before the call, applying
`update_gains_from_map` to an empty map resets `kp` to the documented
default `3/4`, not to the last-known-good `9/10`. -/
theorem c5_missing_entry_resets_to_default :
    (PID.update_gains_from_map { PID.mkDefault with kp := 9/10 } []).kp = 3/4 ∧
    ((3 : ℚ)/4) ≠ 9/10 := by
  constructor
  · rfl
  · norm_num

/-- C5 (amended): `update_gains_from_map` never raises (it is a total
function of the map), and each gain entry that is missing or malformed
sets the corresponding gain field to its documented default
(p to 3/4, i to 1/5, d to 1/20, g to 1), while a convertible entry sets
the field to the converted value. -/
theorem c5_update_gains_fallback (s : PIDState) (m : GainsMap) :
    ((List.lookup "p" m = none ∨ List.lookup "p" m = some none) →
      (PID.update_gains_from_map s m).kp = 3/4) ∧
    ((List.lookup "i" m = none ∨ List.lookup "i" m = some none) →
      (PID.update_gains_from_map s m).ki = 1/5) ∧
    ((List.lookup "d" m = none ∨ List.lookup "d" m = some none) →
      (PID.update_gains_from_map s m).kd = 1/20) ∧
    ((List.lookup "g" m = none ∨ List.lookup "g" m = some none) →
      (PID.update_gains_from_map s m).kg = 1) ∧
    (∀ v, List.lookup "p" m = some (some v) → (PID.update_gains_from_map s m).kp = v) ∧
    (∀ v, List.lookup "i" m = some (some v) → (PID.update_gains_from_map s m).ki = v) ∧
    (∀ v, List.lookup "d" m = some (some v) → (PID.update_gains_from_map s m).kd = v) ∧
    (∀ v, List.lookup "g" m = some (some v) → (PID.update_gains_from_map s m).kg = v) := by
  refine ⟨fun h => ?_, fun h => ?_, fun h => ?_, fun h => ?_,
          fun v h => ?_, fun v h => ?_, fun v h => ?_, fun v h => ?_⟩ <;>
    simp only [PID.update_gains_from_map] <;>
    first
      | exact toValue_of_missing_or_malformed m _ _ h
      | exact toValue_of_present m _ _ v h

/-- C5 witness: concrete instance of the amended claim at a map with a
malformed `i` entry and no `p` entry. -/
theorem c5_update_gains_fallback_witness :
    (PID.update_gains_from_map PID.mkDefault [("i", none), ("g", some 2)]).kp = 3/4 ∧
    (PID.update_gains_from_map PID.mkDefault [("i", none), ("g", some 2)]).ki = 1/5 ∧
    (PID.update_gains_from_map PID.mkDefault [("i", none), ("g", some 2)]).kg = 2 :=
  ⟨(c5_update_gains_fallback PID.mkDefault [("i", none), ("g", some 2)]).1 (Or.inl rfl),
   (c5_update_gains_fallback PID.mkDefault [("i", none), ("g", some 2)]).2.1 (Or.inr rfl),
   (c5_update_gains_fallback PID.mkDefault [("i", none), ("g", some 2)]).2.2.2.2.2.2.2 2 rfl⟩

/-- The default difference function of `PID.__init__`:
`lambda x, y: x - y` (pid.py line 19). -/
def defaultDifference : ℚ → ℚ → ℚ := fun x y => x - y

/-- C7 counterexample: on a freshly constructed PID (whose `set_point` is 0)
the first `process` call with set point 5 stores 5 into `set_point`
(pid.py line 73), so `set_point` is not left unchanged by the first call. -/
theorem c7_first_call_moves_set_point :
    (PID.process defaultDifference PID.mkDefault 5 0 1).1.set_point = 5 ∧
    PID.mkDefault.set_point ≠ 5 := by
  constructor
  · norm_num [PID.process, PID.mkDefault, defaultDifference]
  · norm_num [PID.mkDefault]

/-- C7 (amended): for a PID with `first = true`, `process` returns 0 and
only seeds `last_error`, `last_time` and `set_point` (besides clearing the
`first` flag); `p`, `i`, `d`, `last_output`, `last_delta`, the gains and
the scales are left unchanged. -/
theorem c7_first_call_frame (diff : ℚ → ℚ → ℚ) (s : PIDState)
    (sp current now : ℚ) (h : s.first = true) :
    (PID.process diff s sp current now).2 = 0 ∧
    (PID.process diff s sp current now).1.first = false ∧
    (PID.process diff s sp current now).1.set_point = sp ∧
    (PID.process diff s sp current now).1.last_time = now ∧
    (PID.process diff s sp current now).1.last_error =
      (if |diff sp current| ≤ s.dead_band then 0 else diff sp current) ∧
    (PID.process diff s sp current now).1.p = s.p ∧
    (PID.process diff s sp current now).1.i = s.i ∧
    (PID.process diff s sp current now).1.d = s.d ∧
    (PID.process diff s sp current now).1.kp = s.kp ∧
    (PID.process diff s sp current now).1.ki = s.ki ∧
    (PID.process diff s sp current now).1.kd = s.kd ∧
    (PID.process diff s sp current now).1.kg = s.kg ∧
    (PID.process diff s sp current now).1.i_gain_scale = s.i_gain_scale ∧
    (PID.process diff s sp current now).1.d_gain_scale = s.d_gain_scale ∧
    (PID.process diff s sp current now).1.dead_band = s.dead_band ∧
    (PID.process diff s sp current now).1.last_output = s.last_output ∧
    (PID.process diff s sp current now).1.last_delta = s.last_delta := by
  simp only [PID.process, h, if_true]
  norm_num

/-- C7 witness: the amended first-call frame property at a concrete fresh
PID and a concrete call. -/
theorem c7_first_call_frame_witness :
    (PID.process defaultDifference PID.mkDefault 5 0 1).2 = 0 ∧
    (PID.process defaultDifference PID.mkDefault 5 0 1).1.last_output =
      PID.mkDefault.last_output :=
  ⟨(c7_first_call_frame defaultDifference PID.mkDefault 5 0 1 rfl).1,
   (c7_first_call_frame defaultDifference PID.mkDefault 5 0 1 rfl).2.2.2.2.2.2.2.2.2.2.2.2.2.2.2.1⟩

/-- C10 counterexample: `angle_difference` applies a single wrap, so at
`a1 = 541, a2 = 0` it returns 181, which lies outside `[-180, 180]`: the
universally quantified part of the claim is false. -/
theorem c10_single_wrap_counterexample :
    PID.angle_difference 541 0 = 181 ∧ ¬((181 : ℚ) ≤ 180) := by
  constructor
  · norm_num [PID.angle_difference]
  · norm_num

/-- C10 (amended): `angle_difference(181, 0) = -179` and
`angle_difference(-181, 0) = 179`; for every pair of inputs the result is
congruent to `a1 - a2` modulo 360, and whenever `a1 - a2` lies within
`[-540, 540]` the result lies in `[-180, 180]` (a single wrap suffices
only on that range). -/
theorem c10_angle_difference_wrap (a1 a2 : ℚ) :
    PID.angle_difference 181 0 = -179 ∧
    PID.angle_difference (-181) 0 = 179 ∧
    (∃ k : ℤ, PID.angle_difference a1 a2 = a1 - a2 + 360 * k) ∧
    (-540 ≤ a1 - a2 → a1 - a2 ≤ 540 →
      -180 ≤ PID.angle_difference a1 a2 ∧ PID.angle_difference a1 a2 ≤ 180) := by
  refine ⟨by norm_num [PID.angle_difference], by norm_num [PID.angle_difference], ?_, ?_⟩
  · unfold PID.angle_difference
    dsimp only
    split_ifs
    · exact ⟨-1, by push_cast; ring⟩
    · exact ⟨1, by push_cast; ring⟩
    · exact ⟨0, by push_cast; ring⟩
  · intro hlo hhi
    unfold PID.angle_difference
    dsimp only
    split_ifs with h1 h2
    · constructor <;> linarith
    · constructor <;> linarith
    · constructor <;> linarith

/-- C10 witness: the amended claim instantiated at `a1 = 181, a2 = 0`,
discharging the range hypotheses. -/
theorem c10_angle_difference_wrap_witness :
    -180 ≤ PID.angle_difference 181 0 ∧ PID.angle_difference 181 0 ≤ 180 :=
  (c10_angle_difference_wrap 181 0).2.2.2 (by norm_num) (by norm_num)

/-- The dead-band-filtered error computed at the top of `PID.process`
(pid.py lines 67-69). -/
def pidError (diff : ℚ → ℚ → ℚ) (s : PIDState) (sp current : ℚ) : ℚ :=
  if |diff sp current| ≤ s.dead_band then 0 else diff sp current

/-- C6: integral policy of `PID.process` on a non-first call, with `e` the
dead-band-filtered error: a sign flip relative to `last_error` sets the
integral exactly to zero; without a flip, `|e| ≤ 0.1` also resets it to
zero, and otherwise the integral accumulates
`e * delta_time * i_gain_scale`; consequently, with error above 0.1,
non-negative previous error, strictly increasing time and a positive
integral scale the integral strictly increases, so over a sequence of
calls with constant positive error it grows monotonically until a sign
flip zeroes it. -/
theorem c6_integral_policy (diff : ℚ → ℚ → ℚ) (s : PIDState)
    (sp current now : ℚ) (hfirst : s.first = false) :
    (((s.last_error < 0 ∧ 0 < pidError diff s sp current) ∨
      (s.last_error > 0 ∧ pidError diff s sp current < 0)) →
      (PID.process diff s sp current now).1.i = 0) ∧
    (¬((s.last_error < 0 ∧ 0 < pidError diff s sp current) ∨
       (s.last_error > 0 ∧ pidError diff s sp current < 0)) →
      |pidError diff s sp current| ≤ 1/10 →
      (PID.process diff s sp current now).1.i = 0) ∧
    (¬((s.last_error < 0 ∧ 0 < pidError diff s sp current) ∨
       (s.last_error > 0 ∧ pidError diff s sp current < 0)) →
      ¬(|pidError diff s sp current| ≤ 1/10) →
      (PID.process diff s sp current now).1.i =
        s.i + pidError diff s sp current * (now - s.last_time) * s.i_gain_scale) ∧
    (1/10 < pidError diff s sp current → 0 ≤ s.last_error →
      s.last_time < now → 0 < s.i_gain_scale →
      s.i < (PID.process diff s sp current now).1.i) := by
  simp only [PID.process, hfirst, Bool.false_eq_true, if_false, pidError]
  refine ⟨fun hflip => ?_, fun hnoflip hsmall => ?_, fun hnoflip hbig => ?_, ?_⟩
  · rw [if_pos hflip]
  · rw [if_neg hnoflip, if_pos hsmall]
  · rw [if_neg hnoflip, if_neg hbig]
  · intro hbig hnonneg htime hscale
    have hnoflip : ¬((s.last_error < 0 ∧ 0 < (if |diff sp current| ≤ s.dead_band then 0 else diff sp current)) ∨
        (s.last_error > 0 ∧ (if |diff sp current| ≤ s.dead_band then 0 else diff sp current) < 0)) := by
      rintro (⟨hneg, _⟩ | ⟨_, hlt⟩)
      · exact absurd hnonneg (not_le.mpr hneg)
      · exact absurd hlt (not_lt.mpr (le_trans (by norm_num) (le_of_lt hbig)))
    have hbig2 : ¬(|if |diff sp current| ≤ s.dead_band then 0 else diff sp current| ≤ 1/10) := by
      rw [not_le]
      calc (1:ℚ)/10 < (if |diff sp current| ≤ s.dead_band then 0 else diff sp current) := hbig
        _ ≤ |if |diff sp current| ≤ s.dead_band then 0 else diff sp current| := le_abs_self _
    rw [if_neg hnoflip, if_neg hbig2]
    have : 0 < (if |diff sp current| ≤ s.dead_band then 0 else diff sp current) *
        (now - s.last_time) * s.i_gain_scale := by
      apply mul_pos (mul_pos _ _) hscale
      · linarith
      · linarith
    linarith

/-- Concrete PID state for the C6 witness: a default PID after its seeding
call, with previous error 1 observed at time 0. -/
def c6State : PIDState := { PID.mkDefault with first := false, last_error := 1 }

/-- C6 witness: the integral policy at a concrete non-first call with
constant positive error 1 at time 1: the integral strictly increases. -/
theorem c6_integral_policy_witness :
    c6State.i < (PID.process defaultDifference c6State 1 0 1).1.i :=
  (c6_integral_policy defaultDifference c6State 1 0 1 rfl).2.2.2
    (by norm_num [pidError, defaultDifference, c6State, PID.mkDefault])
    (by norm_num [c6State, PID.mkDefault])
    (by norm_num [c6State, PID.mkDefault])
    (by norm_num [c6State, PID.mkDefault])

/-- C3: in a pass through the state-machine section with state BALANCING and
`cy < -max_deg` or `cy > max_deg`, both motor speeds are set to 0 and the
state changes to WAITING_FOR_READY in that same pass; moreover, whatever
the state, every motor command issued in a pass whose `cy` exceeds the
maximum magnitude is 0. -/
theorem c3_tilt_cutoff (maxDeg cy control : ℚ) (st lastState : BState)
    (h : cy < -maxDeg ∨ maxDeg < cy) :
    (st = BState.balancing →
      (stateStep maxDeg cy control st lastState).1 = BState.waitingForReady ∧
      (0 : ℚ) ∈ (stateStep maxDeg cy control st lastState).2.2) ∧
    (∀ c ∈ (stateStep maxDeg cy control st lastState).2.2, c = 0) := by
  rcases st <;> simp only [stateStep] <;> split_ifs <;> simp_all

/-- C3 witness: the safety cutoff at `max_deg = 45`, `cy = 50`, from state
BALANCING: the pass reverts to WAITING_FOR_READY and issues only zero
motor commands. -/
theorem c3_tilt_cutoff_witness :
    (stateStep 45 50 1 BState.balancing BState.balancing).1 = BState.waitingForReady ∧
    (0 : ℚ) ∈ (stateStep 45 50 1 BState.balancing BState.balancing).2.2 :=
  (c3_tilt_cutoff 45 50 1 BState.balancing BState.balancing
    (Or.inr (by norm_num))).1 rfl

/-- C9: from WAITING_FOR_READY a pass through the state-machine section
moves to BALANCING exactly when `-4 < cy < 4`; on the orientation sequence
`[10, 6, 2, -1, 3]` the transition happens at the sample with value 2 -
the first sample within the band - and at no earlier sample. -/
theorem c9_entry_band (maxDeg cy control : ℚ) (lastState : BState) :
    ((stateStep maxDeg cy control BState.waitingForReady lastState).1 = BState.balancing ↔
      (-4 < cy ∧ cy < 4)) ∧
    (runOrientationSeq 45 0 BState.waitingForReady BState.waitingForReady [10]).1 =
      BState.waitingForReady ∧
    (runOrientationSeq 45 0 BState.waitingForReady BState.waitingForReady [10, 6]).1 =
      BState.waitingForReady ∧
    (runOrientationSeq 45 0 BState.waitingForReady BState.waitingForReady [10, 6, 2]).1 =
      BState.balancing ∧
    (runOrientationSeq 45 0 BState.waitingForReady BState.waitingForReady
      [10, 6, 2, -1, 3]).1 = BState.balancing := by
  refine ⟨?_, ?_, ?_, ?_, ?_⟩
  · by_cases hband : -4 < cy ∧ cy < 4
    · have hcond : BState.waitingForReady = BState.waitingForReady ∧ -4 < cy ∧ cy < 4 :=
        ⟨rfl, hband⟩
      simp only [stateStep, if_pos hcond]
      simp [hband]
    · have hcond : ¬(BState.waitingForReady = BState.waitingForReady ∧ -4 < cy ∧ cy < 4) :=
        fun hc => hband hc.2
      simp only [stateStep, if_neg hcond]
      simp [hband]
  · decide
  · decide
  · decide
  · decide

/-- Concrete bump parameters (the defaults of `Balance.__init__`:
threshold 0.10, delay 0.2, gain 1.0, step 0.2, len 0.3). -/
def c8Params : BumpParams := ⟨1/10, 1/5, 1, 1/5, 3/10⟩

/-- C8 counterexample: a bump is active (`bump_in_place = 0`, still within
`bump_len` at `now = 0.1`) and no candidate is armed; a diverging tick
with `|change| ≥ threshold` nevertheless arms a new candidate
(`bump_found` goes from `None` to `now`), because the source only checks
`bump_found is None` (balancing.py line 148), not the active flag: after
the tick both timestamps are set, refuting "at most one is set". -/
theorem c8_arming_while_active_counterexample :
    (bumpStep c8Params (1/10) 1 1 ⟨none, some 0⟩ 0 0).1.found = some (1/10) ∧
    (bumpStep c8Params (1/10) 1 1 ⟨none, some 0⟩ 0 0).1.inPlace = some 0 ∧
    (bumpStep c8Params (1/10) 1 1 ⟨none, some 0⟩ 0 0).1.found ≠ none ∧
    (bumpStep c8Params (1/10) 1 1 ⟨none, some 0⟩ 0 0).1.inPlace ≠ none := by
  norm_num [bumpStep, c8Params]
  simp

/-- C8 (amended): a control tick arms a new bump candidate (sets the armed
timestamp from `None`) only when the orientation change has the same sign
as the orientation, `|change| ≥ threshold`, and no candidate is currently
armed (`bump_found is None`); an active bump (`bump_in_place` set) does
not prevent arming, so after a tick both timestamps can be set
simultaneously. -/
theorem c8_arm_only_if (p : BumpParams) (now cy angleChange bump output : ℚ)
    (s : BumpState) (hnone : s.found = none)
    (harm : (bumpStep p now cy angleChange s bump output).1.found ≠ none) :
    ((cy < 0 ∧ angleChange < 0) ∨ (0 < cy ∧ 0 < angleChange)) ∧
    |angleChange| ≥ p.threshold ∧
    (bumpStep p now cy angleChange s bump output).1.found = some now := by
  by_cases hdiv : (cy < 0 ∧ angleChange < 0) ∨ (0 < cy ∧ 0 < angleChange)
  · refine ⟨hdiv, ?_⟩
    simp only [bumpStep, hnone, if_pos hdiv] at harm ⊢
    split_ifs at harm ⊢ <;> simp_all
  · exfalso
    apply harm
    simp only [bumpStep, if_neg hdiv]

/-- C8 witness: the amended arming condition at a concrete diverging tick
from a fully clear bump state: the candidate armed, so the tick was
diverging with `|change|` at least the threshold. -/
theorem c8_arm_only_if_witness :
    (((1 : ℚ) < 0 ∧ (1 : ℚ) < 0) ∨ ((0 : ℚ) < 1 ∧ (0 : ℚ) < 1)) ∧
    |(1 : ℚ)| ≥ c8Params.threshold ∧
    (bumpStep c8Params 0 1 1 ⟨none, none⟩ 0 0).1.found = some 0 :=
  c8_arm_only_if c8Params 0 1 1 0 0 ⟨none, none⟩ rfl
    (by norm_num [bumpStep, c8Params]; simp)

end BalancingRover
